import Mathlib

/-!
Shallow embedding of Misago's thread-moderation actions
(misago/threads/moderation/threads.py) and of the generic admin view
scaffolding (misago/admin/views/generic.py).

Threads are modelled as a pair of an in-memory object (`mem`) and the
persisted database row (`db`); a Django `save(update_fields=[...])` copies
exactly the listed fields from the in-memory object to the row, a bare
`save()` copies every column of the thread row.  Audit events are an
append-only list attached to the thread state, and every action also
returns the trace of persistence operations (`Op`) it issued, in program
order, so that save/event counting properties can be stated.
-/

set_option linter.unusedVariables false

structure MUser where
  id : Nat
  username : String
  slug : String
deriving DecidableEq, Repr

/-- The thread's first post, with the hide metadata columns used by
`hide_thread` / `unhide_thread` / `approve_thread`. -/
structure MPost where
  is_hidden : Bool
  is_moderated : Bool
  hidden_by : Option Nat
  hidden_by_name : Option String
  hidden_by_slug : Option String
  hidden_on : Option Nat
deriving DecidableEq, Repr

/-- The thread columns touched by the moderation module. -/
structure MThread where
  weight : Nat
  is_closed : Bool
  is_hidden : Bool
  is_moderated : Bool
  has_events : Bool
  category_id : Nat
  first_post : MPost
deriving DecidableEq, Repr

/-- An audit event row, as recorded by `record_event`. -/
structure MEvent where
  icon : String
  message : String
  by_user : Nat
deriving DecidableEq, Repr

/-- One thread as seen by a moderation action: the in-memory object, the
persisted row, the thread's audit-event rows, and whether the thread row
still exists (`alive = false` after `delete()`). -/
structure ThreadState where
  mem : MThread
  db : MThread
  events : List MEvent
  alive : Bool
deriving DecidableEq, Repr

/-- Thread columns that can appear in a thread save's `update_fields`. -/
inductive TField
  | weight
  | is_closed
  | is_hidden
  | is_moderated
  | has_events
  | category
deriving DecidableEq, Repr

/-- Post columns that can appear in a post save's `update_fields`. -/
inductive PField
  | is_hidden
  | is_moderated
  | hidden_by
  | hidden_by_name
  | hidden_by_slug
  | hidden_on
deriving DecidableEq, Repr

/-- Persistence operations issued by a moderation action, in program order. -/
inductive Op
  | recordEvent (icon : String)
  | saveThread (update_fields : List TField)
  | saveThreadFull
  | savePost (update_fields : List PField)
  | synchronize
  | mergeThreads
  | deleteOther
  | deleteSelf
deriving DecidableEq, Repr

def copyField : TField → MThread → MThread → MThread
  | TField.weight, mem, db => { db with weight := mem.weight }
  | TField.is_closed, mem, db => { db with is_closed := mem.is_closed }
  | TField.is_hidden, mem, db => { db with is_hidden := mem.is_hidden }
  | TField.is_moderated, mem, db => { db with is_moderated := mem.is_moderated }
  | TField.has_events, mem, db => { db with has_events := mem.has_events }
  | TField.category, mem, db => { db with category_id := mem.category_id }

def copyPostField : PField → MPost → MPost → MPost
  | PField.is_hidden, mem, db => { db with is_hidden := mem.is_hidden }
  | PField.is_moderated, mem, db => { db with is_moderated := mem.is_moderated }
  | PField.hidden_by, mem, db => { db with hidden_by := mem.hidden_by }
  | PField.hidden_by_name, mem, db => { db with hidden_by_name := mem.hidden_by_name }
  | PField.hidden_by_slug, mem, db => { db with hidden_by_slug := mem.hidden_by_slug }
  | PField.hidden_on, mem, db => { db with hidden_on := mem.hidden_on }

/-- `thread.save(update_fields=fields)`: persist exactly the listed thread
columns from the in-memory object into the row. -/
def saveThread (fields : List TField) (s : ThreadState) : ThreadState :=
  { s with db := fields.foldl (fun d f => copyField f s.mem d) s.db }

/-- `thread.save()` with no `update_fields`: persist every thread column
(the post row is a separate table and is not written). -/
def saveThreadFull (s : ThreadState) : ThreadState :=
  { s with db := { s.mem with first_post := s.db.first_post } }

/-- `thread.first_post.save(update_fields=fields)`: persist exactly the
listed post columns. -/
def savePost (fields : List PField) (s : ThreadState) : ThreadState :=
  let post := fields.foldl (fun d f => copyPostField f s.mem.first_post d) s.db.first_post
  { s with db := { s.db with first_post := post } }

/-- Modelled from the spec: `record_event` (misago.threads.events, outside
the excerpt) appends one audit Event row to the thread and flips the derived
`has_events` flag on the in-memory thread; the flag itself is persisted by
the caller's subsequent save, whose `update_fields` always include
`has_events`. -/
def record_event (user : MUser) (s : ThreadState) (icon message : String) :
    ThreadState :=
  { s with mem := { s.mem with has_events := true },
           events := s.events ++ [{ icon := icon, message := message, by_user := user.id }] }

/-- Modelled from the spec: `thread.synchronize()` (outside the excerpt)
recomputes derived thread statistics from its posts; none of the moderation
columns tracked here are assigned by the moderation function bodies through
it. -/
def synchronize (s : ThreadState) : ThreadState :=
  s

def announce_thread (user : MUser) (thread : ThreadState) :
    Bool × ThreadState × List Op :=
  if thread.mem.weight ≠ 2 then
    let s1 := record_event user thread "star" "%(user)s turned thread into an announcement."
    let s2 := { s1 with mem := { s1.mem with weight := 2 } }
    let s3 := saveThread [TField.has_events, TField.weight] s2
    (true, s3, [Op.recordEvent "star", Op.saveThread [TField.has_events, TField.weight]])
  else
    (false, thread, [])

def pin_thread (user : MUser) (thread : ThreadState) :
    Bool × ThreadState × List Op :=
  if thread.mem.weight ≠ 1 then
    let s1 := record_event user thread "bookmark" "%(user)s pinned thread."
    let s2 := { s1 with mem := { s1.mem with weight := 1 } }
    let s3 := saveThread [TField.has_events, TField.weight] s2
    (true, s3, [Op.recordEvent "bookmark", Op.saveThread [TField.has_events, TField.weight]])
  else
    (false, thread, [])

def remove_thread_weight (user : MUser) (thread : ThreadState) :
    Bool × ThreadState × List Op :=
  if thread.mem.weight ≠ 0 then
    let s1 := record_event user thread "circle" "%(user)s removed thread weight."
    let s2 := { s1 with mem := { s1.mem with weight := 0 } }
    let s3 := saveThread [TField.has_events, TField.weight] s2
    (true, s3, [Op.recordEvent "circle", Op.saveThread [TField.has_events, TField.weight]])
  else
    (false, thread, [])

/-- `thread.move(new_category)` is modelled from the spec: moving a thread
re-parents it under the new category, i.e. assigns its category column. -/
def move_thread (user : MUser) (thread : ThreadState) (new_category : Nat) :
    Bool × ThreadState × List Op :=
  if thread.mem.category_id ≠ new_category then
    let s1 := record_event user thread "arrow-right" "%(user)s moved thread from %(category)s."
    let s2 := { s1 with mem := { s1.mem with category_id := new_category } }
    let s3 := saveThread [TField.has_events, TField.category] s2
    (true, s3, [Op.recordEvent "arrow-right", Op.saveThread [TField.has_events, TField.category]])
  else
    (false, thread, [])

/-- `thread.merge(other_thread)` is modelled from the spec: merging pulls the
source thread's posts into the destination; none of the moderation columns
tracked here change on the destination. -/
def merge_thread (user : MUser) (thread other_thread : ThreadState) :
    Bool × ThreadState × ThreadState × List Op :=
  let s1 := record_event user thread "arrow-right" "%(user)s merged in %(thread)s."
  (true, s1, { other_thread with alive := false },
   [Op.recordEvent "arrow-right", Op.mergeThreads, Op.deleteOther])

def approve_thread (user : MUser) (thread : ThreadState) :
    Bool × ThreadState × List Op :=
  if thread.mem.is_moderated then
    let s1 := record_event user thread "check" "%(user)s approved thread."
    let s2 := { s1 with mem := { s1.mem with is_closed := false } }
    let p3 := { s2.mem.first_post with is_moderated := false }
    let s3 := { s2 with mem := { s2.mem with first_post := p3 } }
    let s4 := savePost [PField.is_moderated] s3
    let s5 := synchronize s4
    let s6 := saveThread [TField.has_events, TField.is_moderated] s5
    (true, s6,
     [Op.recordEvent "check", Op.savePost [PField.is_moderated], Op.synchronize,
      Op.saveThread [TField.has_events, TField.is_moderated]])
  else
    (false, thread, [])

def open_thread (user : MUser) (thread : ThreadState) :
    Bool × ThreadState × List Op :=
  if thread.mem.is_closed then
    let s1 := record_event user thread "unlock-alt" "%(user)s opened thread."
    let s2 := { s1 with mem := { s1.mem with is_closed := false } }
    let s3 := saveThread [TField.has_events, TField.is_closed] s2
    (true, s3, [Op.recordEvent "unlock-alt", Op.saveThread [TField.has_events, TField.is_closed]])
  else
    (false, thread, [])

def close_thread (user : MUser) (thread : ThreadState) :
    Bool × ThreadState × List Op :=
  if !thread.mem.is_closed then
    let s1 := record_event user thread "lock" "%(user)s closed thread."
    let s2 := { s1 with mem := { s1.mem with is_closed := true } }
    let s3 := saveThread [TField.has_events, TField.is_closed] s2
    (true, s3, [Op.recordEvent "lock", Op.saveThread [TField.has_events, TField.is_closed]])
  else
    (false, thread, [])

def unhide_thread (user : MUser) (thread : ThreadState) :
    Bool × ThreadState × List Op :=
  if thread.mem.is_hidden then
    let s1 := record_event user thread "eye" "%(user)s made thread visible."
    let p2 := { s1.mem.first_post with is_hidden := false }
    let s2 := { s1 with mem := { s1.mem with first_post := p2 } }
    let s3 := savePost [PField.is_hidden] s2
    let s4 := { s3 with mem := { s3.mem with is_hidden := false } }
    let s5 := saveThread [TField.has_events, TField.is_hidden] s4
    let s6 := synchronize s5
    let s7 := saveThreadFull s6
    (true, s7,
     [Op.recordEvent "eye", Op.savePost [PField.is_hidden],
      Op.saveThread [TField.has_events, TField.is_hidden], Op.synchronize,
      Op.saveThreadFull])
  else
    (false, thread, [])

def hide_thread (user : MUser) (thread : ThreadState) (now : Nat) :
    Bool × ThreadState × List Op :=
  if !thread.mem.is_hidden then
    let s1 := record_event user thread "eye-slash" "%(user)s hidden thread."
    let p2 := { s1.mem.first_post with
                is_hidden := true,
                hidden_by := some user.id,
                hidden_by_name := some user.username,
                hidden_by_slug := some user.slug,
                hidden_on := some now }
    let s2 := { s1 with mem := { s1.mem with first_post := p2 } }
    let s3 := savePost
      [PField.is_hidden, PField.hidden_by, PField.hidden_by_name,
       PField.hidden_by_slug, PField.hidden_on] s2
    let s4 := { s3 with mem := { s3.mem with is_hidden := true } }
    let s5 := saveThread [TField.has_events, TField.is_hidden] s4
    (true, s5,
     [Op.recordEvent "eye-slash",
      Op.savePost
        [PField.is_hidden, PField.hidden_by, PField.hidden_by_name,
         PField.hidden_by_slug, PField.hidden_on],
      Op.saveThread [TField.has_events, TField.is_hidden]])
  else
    (false, thread, [])

def delete_thread (user : MUser) (thread : ThreadState) :
    Bool × ThreadState × List Op :=
  (true, { thread with alive := false }, [Op.deleteSelf])

/-- The conditional moderation actions of the module: each one checks the
thread's current state and is a no-op when the thread already satisfies it.
(`merge_thread` and `delete_thread` are unconditional and are treated
separately.)  The `move` constructor carries the target category's pk and
`hideAct` the ambient clock value used for `hidden_on`. -/
inductive CondAction
  | announce
  | pin
  | removeWeight
  | move (new_category : Nat)
  | approve
  | openAct
  | closeAct
  | unhideAct
  | hideAct (now : Nat)
deriving DecidableEq, Repr

def runAction : CondAction → MUser → ThreadState → Bool × ThreadState × List Op
  | CondAction.announce, u, s => announce_thread u s
  | CondAction.pin, u, s => pin_thread u s
  | CondAction.removeWeight, u, s => remove_thread_weight u s
  | CondAction.move pk, u, s => move_thread u s pk
  | CondAction.approve, u, s => approve_thread u s
  | CondAction.openAct, u, s => open_thread u s
  | CondAction.closeAct, u, s => close_thread u s
  | CondAction.unhideAct, u, s => unhide_thread u s
  | CondAction.hideAct now, u, s => hide_thread u s now

/-- The target state of each conditional action, read off from the guard of
that action in the source: the action mutates the thread exactly when this
predicate is false. -/
def inTargetState : CondAction → ThreadState → Bool
  | CondAction.announce, s => s.mem.weight == 2
  | CondAction.pin, s => s.mem.weight == 1
  | CondAction.removeWeight, s => s.mem.weight == 0
  | CondAction.move pk, s => s.mem.category_id == pk
  | CondAction.approve, s => !s.mem.is_moderated
  | CondAction.openAct, s => !s.mem.is_closed
  | CondAction.closeAct, s => s.mem.is_closed
  | CondAction.unhideAct, s => !s.mem.is_hidden
  | CondAction.hideAct _, s => s.mem.is_hidden

/-- The page argument of `ListView.paginate_items` after Python's `int()`
has been attempted on it: `num n` when `int(page)` returns `n`, `bad s`
when `int(page)` raises `ValueError` (a non-numeric string). -/
inductive PInput
  | num (n : Int)
  | bad (s : String)
deriving DecidableEq, Repr

/-- Outcome of `ListView.paginate_items`: either the uncaught
`ExplicitFirstPage` exception escapes the method, or control reaches the
framework paginator with the given page number; on the `ValueError` branch
the method leaves `page` holding the original non-numeric value (the
`except` clause assigns the dead local `page_no`) and hands that value to
the paginator unchanged. -/
inductive PResult
  | explicitFirstPage
  | page (n : Int)
  | nonInt (s : String)
deriving DecidableEq, Repr

def paginate_items : PInput → PResult
  | PInput.num n =>
    if n = 1 then PResult.explicitFirstPage
    else if n = 0 then PResult.page 1
    else PResult.page n
  | PInput.bad s => PResult.nonInt s

/-- The dictionary `ListView.order_items` builds for one `(name, order_by)`
tuple of the declared ordering. -/
structure OrderDict where
  name : String
  order_by : String
  type : String
deriving DecidableEq, Repr

def mkOrderDict (o : String × String) : OrderDict :=
  { name := o.1, order_by := o.2,
    type := if o.2.front = '-' then "desc" else "asc" }

inductive SetOrderingResult
  | redirectCurrent
  | valueError
deriving DecidableEq, Repr

/-- `ListView.set_ordering`: scan the declared orderings for the submitted
key; on the first match store it in the session and redirect to the current
link, otherwise flash "New sorting method is incorrect." and raise
`ValueError`.  Returns (new session value, new flash list, outcome). -/
def set_ordering (ordering : List (String × String)) (session : Option String)
    (flashes : List String) (new_order : String) :
    Option String × List String × SetOrderingResult :=
  match ordering.find? (fun o => o.2 == new_order) with
  | some o => (some o.2, flashes, SetOrderingResult.redirectCurrent)
  | none =>
    (session, flashes ++ ["New sorting method is incorrect."], SetOrderingResult.valueError)

/-- The ordering-related slots of the template context built by
`ListView.order_items`: the selected ordering, the remaining orderings
offered in the sort menu, and the `order_by` key the item queryset was
sorted with (if any). -/
structure OrderContext where
  order : Option OrderDict
  order_by : List OrderDict
  items_order : Option String
deriving DecidableEq, Repr

def order_items_loop (cur : Option String) :
    List (String × String) → OrderContext → OrderContext
  | [], c => c
  | o :: rest, c =>
    let d := mkOrderDict o
    if some o.2 = cur then
      order_items_loop cur rest { c with order := some d, items_order := some d.order_by }
    else
      order_items_loop cur rest { c with order_by := c.order_by ++ [d] }

/-- `ListView.order_items`: returns `none` when the fallback `pop(0)` is
reached with an empty list (Python `IndexError`, possible only when the
declared ordering list itself is empty). -/
def order_items (ordering : List (String × String)) (session : Option String) :
    Option OrderContext :=
  let c := order_items_loop session ordering
    { order := none, order_by := [], items_order := none }
  match c.order with
  | some _ => some c
  | none =>
    match c.order_by with
    | [] => none
    | d :: rest => some { order := some d, order_by := rest, items_order := some d.order_by }

/-- A response leaving `ListView.dispatch`: a redirect issued by
`set_ordering`, a rendered list page, the uncaught `ExplicitFirstPage`
exception from `paginate_items`, or the uncaught `IndexError` from
`order_items`' fallback `pop(0)`. -/
inductive ListResponse
  | redirect (target : String)
  | rendered (order : Option OrderDict) (pageResult : Option PResult)
  | explicitFirstPage
  | indexError
deriving DecidableEq, Repr

def paginate_render (session : Option String) (flashes : List String)
    (order : Option OrderDict) (pageKwarg : Option PInput) (items_per_page : Nat) :
    Option String × List String × ListResponse :=
  if items_per_page ≠ 0 then
    match paginate_items (pageKwarg.getD (PInput.num 0)) with
    | PResult.explicitFirstPage => (session, flashes, ListResponse.explicitFirstPage)
    | r => (session, flashes, ListResponse.rendered order (some r))
  else
    (session, flashes, ListResponse.rendered order none)

def order_then_render (ordering : List (String × String)) (session : Option String)
    (flashes : List String) (pageKwarg : Option PInput) (items_per_page : Nat) :
    Option String × List String × ListResponse :=
  match order_items ordering session with
  | none => (session, flashes, ListResponse.indexError)
  | some c => paginate_render session flashes c.order pageKwarg items_per_page

/-- `ListView.dispatch`.  `postOrderBy = some v` models a POST whose data
contain the key `order_by` with value `v`; `pageKwarg` is the optional
`page` URL kwarg (`kwargs.get('page', 0)` supplies the integer 0 default).
Returns (session sort key, flash messages, response). -/
def ListView.dispatch (ordering : List (String × String)) (session : Option String)
    (flashes : List String) (isPost : Bool) (postOrderBy : Option String)
    (pageKwarg : Option PInput) (items_per_page : Nat) (current_link : String) :
    Option String × List String × ListResponse :=
  if ordering = [] then
    paginate_render session flashes none pageKwarg items_per_page
  else
    match (if isPost then postOrderBy else none) with
    | some v =>
      match set_ordering ordering session flashes v with
      | (session1, flashes1, SetOrderingResult.redirectCurrent) =>
        (session1, flashes1, ListResponse.redirect current_link)
      | (session1, flashes1, SetOrderingResult.valueError) =>
        order_then_render ordering session1 flashes1 pageKwarg items_per_page
    | none => order_then_render ordering session flashes pageKwarg items_per_page

/-- A target entity of a targeted admin view, identified by its pk. -/
structure Entity where
  pk : Nat
deriving DecidableEq, Repr

/-- `TargetedView.get_target`: with URL kwargs present, fetch the entity by
the first kwarg's value (`DoesNotExist` becomes `Except.error`); with no
kwargs, return a fresh unsaved model instance. -/
def TargetedView.get_target (db : Nat → Option Entity) (kwargs : List Nat) :
    Except Unit Entity :=
  match kwargs with
  | pk :: _ =>
    match db pk with
    | some e => Except.ok e
    | none => Except.error ()
  | [] => Except.ok { pk := 0 }

def get_target_or_none (db : Nat → Option Entity) (kwargs : List Nat) :
    Option Entity :=
  match TargetedView.get_target db kwargs with
  | Except.ok e => some e
  | Except.error _ => none

/-- A response leaving `TargetedView.dispatch`: a flash-message-plus-redirect
to the view's `root_link`, or delegation to the subclass hook
`real_dispatch` with the resolved target. -/
inductive TargetedResponse
  | redirect (target : String) (flash : String)
  | real_dispatch (target : Entity)
deriving DecidableEq, Repr

/-- `TargetedView.dispatch`: resolve the target (`None` on `DoesNotExist`),
flash `message_404` and redirect to `root_link` when it is missing, flash
and redirect likewise when `check_permissions` returns an error, else
delegate to `real_dispatch`. -/
def TargetedView.dispatch (db : Nat → Option Entity) (kwargs : List Nat)
    (message_404 : String) (root_link : String)
    (check_permissions : Entity → Option String) : TargetedResponse :=
  match get_target_or_none db kwargs with
  | none => TargetedResponse.redirect root_link message_404
  | some t =>
    match check_permissions t with
    | some err => TargetedResponse.redirect root_link err
    | none => TargetedResponse.real_dispatch t

def mkEvent (icon message : String) (u : MUser) : MEvent :=
  { icon := icon, message := message, by_user := u.id }

/-- The documented effect of each conditional action on a thread that is not
yet in its target state, written out from the spec's description of the
actions ("mutates exactly the documented fields", one appended audit event,
one partial save of the changed columns; for `unhide_thread` the trailing
bare `save()` additionally persists every in-memory thread column). -/
def expectedState : CondAction → MUser → ThreadState → ThreadState
  | CondAction.announce, u, s =>
    let m := { s.mem with weight := 2, has_events := true }
    let d := { s.db with weight := 2, has_events := true }
    let ev := mkEvent "star" "%(user)s turned thread into an announcement." u
    { mem := m, db := d, events := s.events ++ [ev], alive := s.alive }
  | CondAction.pin, u, s =>
    let m := { s.mem with weight := 1, has_events := true }
    let d := { s.db with weight := 1, has_events := true }
    let ev := mkEvent "bookmark" "%(user)s pinned thread." u
    { mem := m, db := d, events := s.events ++ [ev], alive := s.alive }
  | CondAction.removeWeight, u, s =>
    let m := { s.mem with weight := 0, has_events := true }
    let d := { s.db with weight := 0, has_events := true }
    let ev := mkEvent "circle" "%(user)s removed thread weight." u
    { mem := m, db := d, events := s.events ++ [ev], alive := s.alive }
  | CondAction.move pk, u, s =>
    let m := { s.mem with category_id := pk, has_events := true }
    let d := { s.db with category_id := pk, has_events := true }
    let ev := mkEvent "arrow-right" "%(user)s moved thread from %(category)s." u
    { mem := m, db := d, events := s.events ++ [ev], alive := s.alive }
  | CondAction.approve, u, s =>
    let mp := { s.mem.first_post with is_moderated := false }
    let dp := { s.db.first_post with is_moderated := false }
    let m := { s.mem with is_closed := false, has_events := true, first_post := mp }
    let d := { s.db with
               has_events := true, is_moderated := s.mem.is_moderated,
               first_post := dp }
    let ev := mkEvent "check" "%(user)s approved thread." u
    { mem := m, db := d, events := s.events ++ [ev], alive := s.alive }
  | CondAction.openAct, u, s =>
    let m := { s.mem with is_closed := false, has_events := true }
    let d := { s.db with is_closed := false, has_events := true }
    let ev := mkEvent "unlock-alt" "%(user)s opened thread." u
    { mem := m, db := d, events := s.events ++ [ev], alive := s.alive }
  | CondAction.closeAct, u, s =>
    let m := { s.mem with is_closed := true, has_events := true }
    let d := { s.db with is_closed := true, has_events := true }
    let ev := mkEvent "lock" "%(user)s closed thread." u
    { mem := m, db := d, events := s.events ++ [ev], alive := s.alive }
  | CondAction.unhideAct, u, s =>
    let mp := { s.mem.first_post with is_hidden := false }
    let dp := { s.db.first_post with is_hidden := false }
    let m := { s.mem with is_hidden := false, has_events := true, first_post := mp }
    let d := { s.mem with is_hidden := false, has_events := true, first_post := dp }
    let ev := mkEvent "eye" "%(user)s made thread visible." u
    { mem := m, db := d, events := s.events ++ [ev], alive := s.alive }
  | CondAction.hideAct now, u, s =>
    let mp := { s.mem.first_post with
                is_hidden := true, hidden_by := some u.id,
                hidden_by_name := some u.username, hidden_by_slug := some u.slug,
                hidden_on := some now }
    let dp := { s.db.first_post with
                is_hidden := true, hidden_by := some u.id,
                hidden_by_name := some u.username, hidden_by_slug := some u.slug,
                hidden_on := some now }
    let m := { s.mem with is_hidden := true, has_events := true, first_post := mp }
    let d := { s.db with is_hidden := true, has_events := true, first_post := dp }
    let ev := mkEvent "eye-slash" "%(user)s hidden thread." u
    { mem := m, db := d, events := s.events ++ [ev], alive := s.alive }

/-- The documented persistence trace of each conditional action when it
mutates the thread: one audit event, the post save when the action touches
the first post, and the thread save(s) the source issues. -/
def expectedTrace : CondAction → List Op
  | CondAction.announce =>
    [Op.recordEvent "star", Op.saveThread [TField.has_events, TField.weight]]
  | CondAction.pin =>
    [Op.recordEvent "bookmark", Op.saveThread [TField.has_events, TField.weight]]
  | CondAction.removeWeight =>
    [Op.recordEvent "circle", Op.saveThread [TField.has_events, TField.weight]]
  | CondAction.move _ =>
    [Op.recordEvent "arrow-right", Op.saveThread [TField.has_events, TField.category]]
  | CondAction.approve =>
    [Op.recordEvent "check", Op.savePost [PField.is_moderated], Op.synchronize,
     Op.saveThread [TField.has_events, TField.is_moderated]]
  | CondAction.openAct =>
    [Op.recordEvent "unlock-alt", Op.saveThread [TField.has_events, TField.is_closed]]
  | CondAction.closeAct =>
    [Op.recordEvent "lock", Op.saveThread [TField.has_events, TField.is_closed]]
  | CondAction.unhideAct =>
    [Op.recordEvent "eye", Op.savePost [PField.is_hidden],
     Op.saveThread [TField.has_events, TField.is_hidden], Op.synchronize,
     Op.saveThreadFull]
  | CondAction.hideAct _ =>
    [Op.recordEvent "eye-slash",
     Op.savePost
       [PField.is_hidden, PField.hidden_by, PField.hidden_by_name,
        PField.hidden_by_slug, PField.hidden_on],
     Op.saveThread [TField.has_events, TField.is_hidden]]

lemma runAction_in_target (a : CondAction) (u : MUser) (s : ThreadState)
    (h : inTargetState a s = true) : runAction a u s = (false, s, []) := by
  cases a <;>
    simp_all [inTargetState, runAction, announce_thread, pin_thread,
      remove_thread_weight, move_thread, approve_thread, open_thread,
      close_thread, unhide_thread, hide_thread]

lemma runAction_not_in_target (a : CondAction) (u : MUser) (s : ThreadState)
    (h : inTargetState a s = false) :
    runAction a u s = (true, expectedState a u s, expectedTrace a) := by
  cases a <;>
    simp_all [inTargetState, runAction, expectedState, expectedTrace, mkEvent,
      announce_thread, pin_thread, remove_thread_weight, move_thread,
      approve_thread, open_thread, close_thread, unhide_thread, hide_thread,
      record_event, saveThread, savePost, saveThreadFull, synchronize,
      copyField, copyPostField]

def u0 : MUser := { id := 7, username := "Moderator", slug := "moderator" }

def p0 : MPost :=
  { is_hidden := false, is_moderated := false, hidden_by := none,
    hidden_by_name := none, hidden_by_slug := none, hidden_on := none }

def t0 : MThread :=
  { weight := 0, is_closed := false, is_hidden := false, is_moderated := false,
    has_events := false, category_id := 3, first_post := p0 }

/-- A plain visible thread: weight 0, open, visible, not moderated, no
events, in-memory object in sync with its row. -/
def st0 : ThreadState := { mem := t0, db := t0, events := [], alive := true }

def tHidden : MThread := { t0 with is_hidden := true, first_post := { p0 with is_hidden := true } }

/-- A hidden thread. -/
def stHidden : ThreadState := { mem := tHidden, db := tHidden, events := [], alive := true }

def tModerated : MThread := { t0 with is_moderated := true, first_post := { p0 with is_moderated := true } }

/-- An unapproved (moderated) thread. -/
def stModerated : ThreadState := { mem := tModerated, db := tModerated, events := [], alive := true }

/-- An already-deleted thread row. -/
def stDeleted : ThreadState := { mem := t0, db := t0, events := [], alive := false }

def isThreadSaveOp : Op → Bool
  | Op.saveThread _ => true
  | Op.saveThreadFull => true
  | _ => false

def isFullThreadSaveOp : Op → Bool
  | Op.saveThreadFull => true
  | _ => false

def isEventOp : Op → Bool
  | Op.recordEvent _ => true
  | _ => false

/-- C1 counterexample -/
theorem merge_and_delete_are_not_noops :
    (delete_thread u0 stDeleted).1 = true ∧
    stDeleted.alive = false ∧
    (merge_thread u0 st0 stHidden).1 = true ∧
    (merge_thread u0 st0 stHidden).2.1.events ≠ st0.events := by
  refine ⟨rfl, rfl, rfl, ?_⟩
  decide

/-- C1 amended -/
theorem conditional_actions_idempotent :
    (∀ a : CondAction, ∀ u : MUser, ∀ s : ThreadState,
       inTargetState a s = true → runAction a u s = (false, s, [])) ∧
    (∀ u : MUser, ∀ s other : ThreadState, (merge_thread u s other).1 = true) ∧
    (∀ u : MUser, ∀ s : ThreadState, (delete_thread u s).1 = true) :=
  ⟨runAction_in_target, fun _ _ _ => rfl, fun _ _ => rfl⟩

/-- C1 witness -/
theorem conditional_actions_idempotent_witness :
    inTargetState CondAction.openAct st0 = true ∧
    runAction CondAction.openAct u0 st0 = (false, st0, []) :=
  ⟨by decide, conditional_actions_idempotent.1 CondAction.openAct u0 st0 (by decide)⟩

/-- C2 counterexample -/
theorem delete_thread_appends_no_event :
    (delete_thread u0 st0).1 = true ∧
    (delete_thread u0 st0).2.1.events = st0.events := by
  exact ⟨rfl, rfl⟩

/-- C2 amended -/
theorem actions_mutate_documented_fields :
    (∀ a : CondAction, ∀ u : MUser, ∀ s : ThreadState,
       inTargetState a s = false →
       runAction a u s = (true, expectedState a u s, expectedTrace a)) ∧
    (∀ u : MUser, ∀ s other : ThreadState,
       (merge_thread u s other).1 = true ∧
       (merge_thread u s other).2.1.events =
         s.events ++ [mkEvent "arrow-right" "%(user)s merged in %(thread)s." u]) ∧
    (∀ u : MUser, ∀ s : ThreadState,
       (delete_thread u s).1 = true ∧ (delete_thread u s).2.1.events = s.events) :=
  ⟨runAction_not_in_target, fun _ _ _ => ⟨rfl, rfl⟩, fun _ _ => ⟨rfl, rfl⟩⟩

/-- C2 witness -/
theorem actions_mutate_documented_fields_witness :
    inTargetState CondAction.closeAct st0 = false ∧
    runAction CondAction.closeAct u0 st0 =
      (true, expectedState CondAction.closeAct u0 st0, expectedTrace CondAction.closeAct) :=
  ⟨by decide, actions_mutate_documented_fields.1 CondAction.closeAct u0 st0 (by decide)⟩

/-- C3 counterexample -/
theorem unhide_issues_two_thread_saves :
    (unhide_thread u0 stHidden).1 = true ∧
    ((unhide_thread u0 stHidden).2.2.countP isThreadSaveOp) = 2 := by
  exact ⟨rfl, by decide⟩

/-- C3 amended -/
theorem moderation_save_event_invariant :
    (∀ a : CondAction, ∀ u : MUser, ∀ s : ThreadState,
       inTargetState a s = true → runAction a u s = (false, s, [])) ∧
    (∀ a : CondAction, ∀ u : MUser, ∀ s : ThreadState,
       inTargetState a s = false → a ≠ CondAction.unhideAct →
       ((runAction a u s).2.2.countP isThreadSaveOp = 1 ∧
        (runAction a u s).2.2.countP isFullThreadSaveOp = 0 ∧
        (runAction a u s).2.2.countP isEventOp = 1)) ∧
    (∀ u : MUser, ∀ s : ThreadState,
       inTargetState CondAction.unhideAct s = false →
       ((unhide_thread u s).2.2.countP isThreadSaveOp = 2 ∧
        (unhide_thread u s).2.2.countP isFullThreadSaveOp = 1 ∧
        (unhide_thread u s).2.2.countP isEventOp = 1)) ∧
    (∀ u : MUser, ∀ s other : ThreadState,
       ((merge_thread u s other).2.2.2.countP isThreadSaveOp = 0 ∧
        (merge_thread u s other).2.2.2.countP isEventOp = 1)) ∧
    (∀ u : MUser, ∀ s : ThreadState, (delete_thread u s).2.2 = [Op.deleteSelf]) := by
  refine ⟨runAction_in_target, ?_, ?_, ?_, fun _ _ => rfl⟩
  · intro a u s h hne
    have htr : (runAction a u s).2.2 = expectedTrace a := by
      rw [runAction_not_in_target a u s h]
    rw [htr]
    cases a <;> simp only [expectedTrace] <;>
      first
        | exact (hne rfl).elim
        | exact ⟨by decide, by decide, by decide⟩
  · intro u s h
    have htr : (unhide_thread u s).2.2 = expectedTrace CondAction.unhideAct := by
      show (runAction CondAction.unhideAct u s).2.2 = expectedTrace CondAction.unhideAct
      rw [runAction_not_in_target CondAction.unhideAct u s h]
    rw [htr]
    exact ⟨by decide, by decide, by decide⟩
  · intro u s other
    have htr : (merge_thread u s other).2.2.2 =
        [Op.recordEvent "arrow-right", Op.mergeThreads, Op.deleteOther] := rfl
    rw [htr]
    exact ⟨by decide, by decide⟩

/-- C3 witness -/
theorem moderation_save_event_invariant_witness :
    (runAction CondAction.closeAct u0 st0).2.2.countP isThreadSaveOp = 1 ∧
    (unhide_thread u0 stHidden).2.2.countP isFullThreadSaveOp = 1 :=
  ⟨(moderation_save_event_invariant.2.1 CondAction.closeAct u0 st0 (by decide)
      (by decide)).1,
   (moderation_save_event_invariant.2.2.1 u0 stHidden (by decide)).2.1⟩

/-- The hide metadata `hide_thread` stamps on the first post. -/
def hiddenMeta (u : MUser) (now : Nat) (p : MPost) : MPost :=
  { p with
    is_hidden := true, hidden_by := some u.id, hidden_by_name := some u.username,
    hidden_by_slug := some u.slug, hidden_on := some now }

/-- A post with only its visibility flag cleared. -/
def unhiddenPost (p : MPost) : MPost :=
  { p with is_hidden := false }

/-- C4 -/
theorem hide_sets_metadata_unhide_clears_only_visibility :
    (∀ u : MUser, ∀ s : ThreadState, ∀ now : Nat, s.mem.is_hidden = false →
       ((hide_thread u s now).2.1.mem.first_post = hiddenMeta u now s.mem.first_post ∧
        (hide_thread u s now).2.1.db.first_post = hiddenMeta u now s.db.first_post)) ∧
    (∀ u : MUser, ∀ s : ThreadState, s.mem.is_hidden = true →
       ((unhide_thread u s).2.1.mem.is_hidden = false ∧
        (unhide_thread u s).2.1.db.is_hidden = false ∧
        (unhide_thread u s).2.1.mem.first_post = unhiddenPost s.mem.first_post ∧
        (unhide_thread u s).2.1.db.first_post = unhiddenPost s.db.first_post ∧
        (unhide_thread u s).2.1.events =
          s.events ++ [mkEvent "eye" "%(user)s made thread visible." u])) := by
  constructor
  · intro u s now h
    constructor <;>
      simp [hide_thread, h, record_event, saveThread, savePost, copyField,
        copyPostField, hiddenMeta]
  · intro u s h
    refine ⟨?_, ?_, ?_, ?_, ?_⟩ <;>
      simp [unhide_thread, h, record_event, saveThread, savePost, saveThreadFull,
        synchronize, copyField, copyPostField, unhiddenPost, mkEvent]

/-- C4 witness -/
theorem hide_unhide_metadata_witness :
    st0.mem.is_hidden = false ∧
    (hide_thread u0 st0 42).2.1.mem.first_post = hiddenMeta u0 42 st0.mem.first_post ∧
    stHidden.mem.is_hidden = true ∧
    (unhide_thread u0 stHidden).2.1.mem.first_post = unhiddenPost stHidden.mem.first_post :=
  ⟨rfl,
   (hide_sets_metadata_unhide_clears_only_visibility.1 u0 st0 42 rfl).1,
   rfl,
   (hide_sets_metadata_unhide_clears_only_visibility.2 u0 stHidden rfl).2.2.1⟩

/-- C5 -/
theorem merge_thread_merges_then_deletes_source (u : MUser) (s other : ThreadState) :
    (merge_thread u s other).1 = true ∧
    (merge_thread u s other).2.1.alive = s.alive ∧
    (merge_thread u s other).2.2.1.alive = false ∧
    (merge_thread u s other).2.2.2 =
      [Op.recordEvent "arrow-right", Op.mergeThreads, Op.deleteOther] ∧
    List.indexOf Op.mergeThreads
        [Op.recordEvent "arrow-right", Op.mergeThreads, Op.deleteOther] <
      List.indexOf Op.deleteOther
        [Op.recordEvent "arrow-right", Op.mergeThreads, Op.deleteOther] :=
  ⟨rfl, rfl, rfl, rfl, by decide⟩

/-- C10 -/
theorem approve_save_omits_is_closed (u : MUser) (s : ThreadState)
    (h : s.mem.is_moderated = true) :
    (approve_thread u s).1 = true ∧
    (approve_thread u s).2.1.mem.is_closed = false ∧
    (approve_thread u s).2.2 =
      [Op.recordEvent "check", Op.savePost [PField.is_moderated], Op.synchronize,
       Op.saveThread [TField.has_events, TField.is_moderated]] ∧
    TField.is_closed ∉ [TField.has_events, TField.is_moderated] ∧
    (approve_thread u s).2.1.db.is_closed = s.db.is_closed ∧
    (approve_thread u s).2.1.mem.is_moderated = s.mem.is_moderated ∧
    (approve_thread u s).2.1.db.is_moderated = s.mem.is_moderated := by
  refine ⟨?_, ?_, ?_, by decide, ?_, ?_, ?_⟩ <;>
    simp [approve_thread, h, record_event, saveThread, savePost, synchronize,
      copyField, copyPostField]

/-- C10 witness -/
theorem approve_save_omits_is_closed_witness :
    stModerated.mem.is_moderated = true ∧
    (approve_thread u0 stModerated).2.1.mem.is_closed = false ∧
    (approve_thread u0 stModerated).2.1.db.is_closed = stModerated.db.is_closed :=
  ⟨rfl, (approve_save_omits_is_closed u0 stModerated rfl).2.1,
   (approve_save_omits_is_closed u0 stModerated rfl).2.2.2.2.1⟩

/-- C9 -/
theorem paginate_first_page_only_via_zero :
    paginate_items (PInput.num 1) = PResult.explicitFirstPage ∧
    paginate_items (PInput.num 0) = PResult.page 1 ∧
    ∀ inp : PInput, paginate_items inp = PResult.page 1 → inp = PInput.num 0 := by
  refine ⟨rfl, rfl, ?_⟩
  intro inp h
  cases inp with
  | num n =>
    by_cases h1 : n = 1
    · subst h1; simp [paginate_items] at h
    · by_cases h0 : n = 0
      · subst h0; rfl
      · simp [paginate_items, h1, h0] at h
  | bad s => simp [paginate_items] at h

/-- C9 witness -/
theorem paginate_first_page_only_via_zero_witness :
    paginate_items (PInput.num 0) = PResult.page 1 ∧ PInput.num 0 = PInput.num 0 :=
  ⟨by decide, paginate_first_page_only_via_zero.2.2 (PInput.num 0) (by decide)⟩

lemma order_items_loop_no_match (cur : Option String) (l : List (String × String))
    (c : OrderContext) (h : ∀ p ∈ l, some p.2 ≠ cur) :
    order_items_loop cur l c = { c with order_by := c.order_by ++ l.map mkOrderDict } := by
  induction l generalizing c with
  | nil => simp [order_items_loop]
  | cons p t ih =>
    have hp : some p.2 ≠ cur := h p (List.mem_cons_self p t)
    rw [order_items_loop, if_neg hp,
        ih _ (fun q hq => h q (List.mem_cons_of_mem p hq))]
    simp

/-- C7 -/
theorem order_items_falls_back_to_first (o : String × String)
    (rest : List (String × String)) (session : Option String)
    (h : ∀ p ∈ o :: rest, some p.2 ≠ session) :
    order_items (o :: rest) session =
      some { order := some (mkOrderDict o), order_by := rest.map mkOrderDict,
             items_order := some o.2 } := by
  unfold order_items
  rw [order_items_loop_no_match _ _ _ h]
  simp [mkOrderDict]

/-- C7 witness -/
theorem order_items_falls_back_to_first_witness :
    (∀ p ∈ [("Name", "name"), ("Replies", "-replies")],
       some p.2 ≠ (none : Option String)) ∧
    order_items [("Name", "name"), ("Replies", "-replies")] none =
      some { order := some (mkOrderDict ("Name", "name")),
             order_by := [mkOrderDict ("Replies", "-replies")],
             items_order := some "name" } :=
  ⟨by decide,
   order_items_falls_back_to_first ("Name", "name") [("Replies", "-replies")] none
     (by decide)⟩

lemma paginate_render_frame (session : Option String) (flashes : List String)
    (order : Option OrderDict) (pageKwarg : Option PInput) (items_per_page : Nat) :
    (paginate_render session flashes order pageKwarg items_per_page).1 = session ∧
    (paginate_render session flashes order pageKwarg items_per_page).2.1 = flashes ∧
    ∀ t, (paginate_render session flashes order pageKwarg items_per_page).2.2 ≠
      ListResponse.redirect t := by
  unfold paginate_render
  split
  · split <;> simp_all
  · simp

lemma order_then_render_frame (ordering : List (String × String))
    (session : Option String) (flashes : List String) (pageKwarg : Option PInput)
    (items_per_page : Nat) :
    (order_then_render ordering session flashes pageKwarg items_per_page).1 = session ∧
    (order_then_render ordering session flashes pageKwarg items_per_page).2.1 = flashes ∧
    ∀ t, (order_then_render ordering session flashes pageKwarg items_per_page).2.2 ≠
      ListResponse.redirect t := by
  unfold order_then_render
  cases horder : order_items ordering session with
  | none => simp
  | some c => exact paginate_render_frame session flashes c.order pageKwarg items_per_page

/-- C6 cex -/
def cexOrdering : List (String × String) := [("Username", "username")]

theorem invalid_sort_key_renders_not_redirects :
    ListView.dispatch cexOrdering none [] true (some "bogus") none 0 "misago:admin:users" =
      (none, ["New sorting method is incorrect."],
       ListResponse.rendered (some (mkOrderDict ("Username", "username"))) none) := by
  decide

/-- C6 amended -/
theorem invalid_sort_key_flash_no_redirect (ordering : List (String × String))
    (session : Option String) (flashes : List String) (v : String)
    (pageKwarg : Option PInput) (items_per_page : Nat) (link : String)
    (h1 : ordering ≠ [])
    (h2 : ordering.find? (fun o => o.2 == v) = none) :
    (ListView.dispatch ordering session flashes true (some v) pageKwarg items_per_page link).1 =
      session ∧
    (ListView.dispatch ordering session flashes true (some v) pageKwarg items_per_page link).2.1 =
      flashes ++ ["New sorting method is incorrect."] ∧
    ∀ t, (ListView.dispatch ordering session flashes true (some v) pageKwarg items_per_page
      link).2.2 ≠ ListResponse.redirect t := by
  unfold ListView.dispatch
  rw [if_neg h1]
  simp only [if_pos]
  unfold set_ordering
  rw [h2]
  exact order_then_render_frame ordering session
    (flashes ++ ["New sorting method is incorrect."]) pageKwarg items_per_page

/-- C6 witness -/
theorem invalid_sort_key_flash_no_redirect_witness :
    cexOrdering ≠ [] ∧
    cexOrdering.find? (fun o => o.2 == "zzz") = none ∧
    (ListView.dispatch cexOrdering none [] true (some "zzz") none 5 "misago:x").1 = none ∧
    (ListView.dispatch cexOrdering none [] true (some "zzz") none 5 "misago:x").2.2 ≠
      ListResponse.redirect "misago:x" :=
  ⟨by decide, by decide,
   (invalid_sort_key_flash_no_redirect cexOrdering none [] "zzz" none 5 "misago:x"
      (by decide) (by decide)).1,
   (invalid_sort_key_flash_no_redirect cexOrdering none [] "zzz" none 5 "misago:x"
      (by decide) (by decide)).2.2 "misago:x"⟩

/-- C8 -/
theorem missing_target_flashes_404_and_redirects (db : Nat → Option Entity)
    (pk : Nat) (rest : List Nat) (message_404 root_link : String)
    (check_permissions : Entity → Option String) (h : db pk = none) :
    TargetedView.dispatch db (pk :: rest) message_404 root_link check_permissions =
      TargetedResponse.redirect root_link message_404 := by
  simp [TargetedView.dispatch, get_target_or_none, TargetedView.get_target, h]

/-- C8 witness -/
theorem missing_target_flashes_404_and_redirects_witness :
    (fun _ : Nat => (none : Option Entity)) 5 = none ∧
    TargetedView.dispatch (fun _ => none) [5] "Requested user does not exist."
        "misago:admin:index" (fun _ => none) =
      TargetedResponse.redirect "misago:admin:index" "Requested user does not exist." :=
  ⟨rfl,
   missing_target_flashes_404_and_redirects (fun _ => none) 5 []
     "Requested user does not exist." "misago:admin:index" (fun _ => none) rfl⟩
